import Mathlib

/-!
Verification of the TwiML builder components and client-credential
resolution of `twilio_components.py`.

The components' own logic (truthiness guards on optional parameters,
required parameters, which verbs each component emits, credential
precedence in `get_twilio_client`) is translated directly from the
source.  The markup tree, its serializer, the required-port check and
the document-kind check live outside the source file (in the Twilio
library and the component base class); those are modelled from the
spec, each marked `Modelled from the spec:` in its doc comment.
-/

namespace Twilio

/-- Modelled from the spec: an InstructionNode — one markup element with
its verb name, resolved attributes (name/value pairs in order), optional
text content and ordered children (spec §3). -/
inductive TwiML where
  | elem (name : String) (attrs : List (String × String)) (text : String) (children : List TwiML)

def TwiML.name : TwiML → String
  | .elem n _ _ _ => n

def TwiML.attrs : TwiML → List (String × String)
  | .elem _ a _ _ => a

def TwiML.text : TwiML → String
  | .elem _ _ t _ => t

def TwiML.children : TwiML → List TwiML
  | .elem _ _ _ c => c

/-- Document kind: `VoiceResponse` or `MessagingResponse` (spec §3). -/
inductive Kind where
  | voice
  | messaging
deriving DecidableEq, Repr

/-- Modelled from the spec: a ResponseDocument — a kind plus the ordered
sequence of top-level instruction nodes (spec §3). -/
structure ResponseDocument where
  kind : Kind
  nodes : List TwiML

/-- Render an attribute list as ` name="value"` pairs in list order. -/
def renderAttrs : List (String × String) → String
  | [] => ""
  | (n, v) :: rest => " " ++ n ++ "=\"" ++ v ++ "\"" ++ renderAttrs rest

mutual

/-- Modelled from the spec: the serializer renders each node as a markup
element named after its verb, attributes as element attributes, text
content as element text, and children recursively nested, in document
order (spec §4.3). -/
def render : TwiML → String
  | .elem n attrs txt children =>
    "<" ++ n ++ renderAttrs attrs ++ ">" ++ txt ++ renderList children ++ "</" ++ n ++ ">"

def renderList : List TwiML → String
  | [] => ""
  | c :: cs => render c ++ renderList cs

end

/-- Modelled from the spec: the whole document is wrapped in a single
root element named `Response` for both kinds (spec §4.3). -/
def serialize (d : ResponseDocument) : String :=
  render (.elem "Response" [] "" d.nodes)

/-- Error taxonomy of the builder (spec §7) together with the
credential error raised by `get_twilio_client` in the source. -/
inductive TwiMLError where
  | MissingRequiredAttribute
  | UnknownAttribute
  | IncompatibleVerb
deriving DecidableEq, Repr

/-- Python truthiness of an optional string port value
(`if self.voice.value:`): present and non-empty. -/
def truthyStr : Option String → Bool
  | none => false
  | some s => decide (s ≠ "")

/-- Python truthiness of an optional integer port value
(`if self.loop.value:`): present and non-zero. -/
def truthyInt : Option Int → Bool
  | none => false
  | some n => decide (n ≠ 0)

/-- Python truthiness of an optional boolean port value
(`if self.transcribe.value:`): present and `True`. -/
def truthyBool : Option Bool → Bool
  | none => false
  | some b => b

/-- The `if self.x.value: kwargs[name] = self.x.value` pattern for a
string-valued optional port: one attribute when truthy, none otherwise. -/
def optStrAttr (name : String) (v : Option String) : List (String × String) :=
  match v with
  | none => []
  | some s => if s = "" then [] else [(name, s)]

/-- The same guard pattern for an integer-valued optional port. -/
def optIntAttr (name : String) (v : Option Int) : List (String × String) :=
  match v with
  | none => []
  | some n => if n = 0 then [] else [(name, toString n)]

/-- The `if self.transcribe.value: kwargs[name] = True` pattern for a
boolean-valued optional port. -/
def optBoolAttr (name : String) (v : Option Bool) : List (String × String) :=
  match v with
  | none => []
  | some b => if b then [(name, "true")] else []

/-- The Say node built by `TwilioMakeTwiMLSay.execute`: kwargs `voice`,
`language`, `loop` added only when truthy, in that order. -/
def sayNode (message : String) (voice language : Option String) (loop : Option Int) : TwiML :=
  .elem "Say" (optStrAttr "voice" voice ++ optStrAttr "language" language ++ optIntAttr "loop" loop) message []

/-- The Play node built by `TwilioMakeTwiMLPlay.execute`: kwarg `loop`
added only when truthy. -/
def playNode (url : String) (loop : Option Int) : TwiML :=
  .elem "Play" (optIntAttr "loop" loop) url []

/-- A Number child of a Dial node (`dial.number(number)`). -/
def numberNode (number : String) : TwiML :=
  .elem "Number" [] number []

/-- The Dial node built by `TwilioMakeTwiMLDial.execute`: kwargs
`timeout` and `caller_id` (schema attribute `callerId`) added only when
truthy; one Number child per supplied phone number, in list order. -/
def dialNode (timeout : Option Int) (caller_id : Option String) (numbers : List String) : TwiML :=
  .elem "Dial" (optIntAttr "timeout" timeout ++ optStrAttr "callerId" caller_id) "" (numbers.map numberNode)

/-- The Gather node built by `TwilioMakeTwiMLGather.execute`: required
kwargs `num_digits` (schema attribute `numDigits`) and `action` always
present, optional `timeout` only when truthy; the prompt becomes a
nested attribute-free Say child. -/
def gatherNode (num_digits : Int) (action : String) (timeout : Option Int) (prompt : String) : TwiML :=
  .elem "Gather" ([("numDigits", toString num_digits), ("action", action)] ++ optIntAttr "timeout" timeout) ""
    [.elem "Say" [] prompt []]

/-- The Message node built by `TwilioMakeTwiMLMessage.execute`: a Media
child only when `media_url` is truthy. -/
def messageNode (message : String) (media_url : Option String) : TwiML :=
  .elem "Message" [] message
    (match media_url with
     | none => []
     | some u => if u = "" then [] else [.elem "Media" [] u []])

/-- The Record node built by `TwilioMakeTwiMLSayAndRecord.execute`:
required kwargs `maxLength` and `action` always present; `timeout`,
`transcribe` and `transcribeCallback` only when truthy, in that order. -/
def recordNode (max_length : Int) (action : String) (timeout : Option Int)
    (transcribe : Option Bool) (transcribe_callback : Option String) : TwiML :=
  .elem "Record"
    ([("maxLength", toString max_length), ("action", action)] ++
      optIntAttr "timeout" timeout ++ optBoolAttr "transcribe" transcribe ++
      optStrAttr "transcribeCallback" transcribe_callback) "" []

/-- Modelled from the spec: the verbs each document kind may contain —
voice documents only Say/Play/Dial/Gather/Record, messaging documents
only Message (spec §3, §4.2). -/
def allowedVerbs : Kind → List String
  | .voice => ["Say", "Play", "Dial", "Gather", "Record"]
  | .messaging => ["Message"]

/-- Modelled from the spec: appending a verb to a document fails with
`IncompatibleVerb` when the verb is not permitted for the document's
kind, and otherwise appends it at the end of the top-level sequence
(spec §4.2). -/
def appendVerb (d : ResponseDocument) (n : TwiML) : Except TwiMLError ResponseDocument :=
  if (allowedVerbs d.kind).contains n.name then
    .ok ⟨d.kind, d.nodes ++ [n]⟩
  else
    .error .IncompatibleVerb

/-- `TwilioMakeTwiMLSay.execute` as a document builder.  The required
port check (`message` is an `InCompArg`) is modelled from the spec:
absence of a required attribute raises `MissingRequiredAttribute`
(spec §4.1); the node construction follows the source. -/
def makeTwiMLSayDoc (message voice language : Option String) (loop : Option Int) :
    Except TwiMLError ResponseDocument :=
  match message with
  | none => .error .MissingRequiredAttribute
  | some m => .ok ⟨.voice, [sayNode m voice language loop]⟩

/-- `TwilioMakeTwiMLSay.execute`: the serialized `twiml` output. -/
def makeTwiMLSay (message voice language : Option String) (loop : Option Int) :
    Except TwiMLError String :=
  (makeTwiMLSayDoc message voice language loop).map serialize

/-- `TwilioMakeTwiMLPlay.execute` as a document builder (`url` required). -/
def makeTwiMLPlayDoc (url : Option String) (loop : Option Int) :
    Except TwiMLError ResponseDocument :=
  match url with
  | none => .error .MissingRequiredAttribute
  | some u => .ok ⟨.voice, [playNode u loop]⟩

/-- `TwilioMakeTwiMLPlay.execute`: the serialized `twiml` output. -/
def makeTwiMLPlay (url : Option String) (loop : Option Int) : Except TwiMLError String :=
  (makeTwiMLPlayDoc url loop).map serialize

/-- `TwilioMakeTwiMLDial.execute` as a document builder (`numbers` required). -/
def makeTwiMLDialDoc (numbers : Option (List String)) (timeout : Option Int)
    (caller_id : Option String) : Except TwiMLError ResponseDocument :=
  match numbers with
  | none => .error .MissingRequiredAttribute
  | some ns => .ok ⟨.voice, [dialNode timeout caller_id ns]⟩

/-- `TwilioMakeTwiMLDial.execute`: the serialized `twiml` output. -/
def makeTwiMLDial (numbers : Option (List String)) (timeout : Option Int)
    (caller_id : Option String) : Except TwiMLError String :=
  (makeTwiMLDialDoc numbers timeout caller_id).map serialize

/-- `TwilioMakeTwiMLGather.execute` as a document builder (`prompt`,
`num_digits` and `action_url` required). -/
def makeTwiMLGatherDoc (prompt : Option String) (num_digits : Option Int)
    (timeout : Option Int) (action_url : Option String) :
    Except TwiMLError ResponseDocument :=
  match prompt, num_digits, action_url with
  | some p, some nd, some a => .ok ⟨.voice, [gatherNode nd a timeout p]⟩
  | _, _, _ => .error .MissingRequiredAttribute

/-- `TwilioMakeTwiMLGather.execute`: the serialized `twiml` output. -/
def makeTwiMLGather (prompt : Option String) (num_digits : Option Int)
    (timeout : Option Int) (action_url : Option String) : Except TwiMLError String :=
  (makeTwiMLGatherDoc prompt num_digits timeout action_url).map serialize

/-- `TwilioMakeTwiMLMessage.execute` as a document builder (`message` required). -/
def makeTwiMLMessageDoc (message : Option String) (media_url : Option String) :
    Except TwiMLError ResponseDocument :=
  match message with
  | none => .error .MissingRequiredAttribute
  | some m => .ok ⟨.messaging, [messageNode m media_url]⟩

/-- `TwilioMakeTwiMLMessage.execute`: the serialized `twiml` output. -/
def makeTwiMLMessage (message : Option String) (media_url : Option String) :
    Except TwiMLError String :=
  (makeTwiMLMessageDoc message media_url).map serialize

/-- `TwilioMakeTwiMLSayAndRecord.execute` as a document builder
(`message`, `max_length` and `action_url` required): a plain Say node
followed by a Record node. -/
def makeTwiMLSayAndRecordDoc (message : Option String) (max_length : Option Int)
    (timeout : Option Int) (transcribe : Option Bool)
    (transcribe_callback : Option String) (action_url : Option String) :
    Except TwiMLError ResponseDocument :=
  match message, max_length, action_url with
  | some m, some ml, some a =>
    .ok ⟨.voice, [sayNode m none none none, recordNode ml a timeout transcribe transcribe_callback]⟩
  | _, _, _ => .error .MissingRequiredAttribute

/-- `TwilioMakeTwiMLSayAndRecord.execute`: the serialized `twiml` output. -/
def makeTwiMLSayAndRecord (message : Option String) (max_length : Option Int)
    (timeout : Option Int) (transcribe : Option Bool)
    (transcribe_callback : Option String) (action_url : Option String) :
    Except TwiMLError String :=
  (makeTwiMLSayAndRecordDoc message max_length timeout transcribe transcribe_callback action_url).map serialize

/-- `t` carries an attribute named `a`. -/
def hasAttr (t : TwiML) (a : String) : Bool :=
  t.attrs.any (fun p => p.1 == a)

/-- A built document contains only verbs permitted for its kind (an
error counts as vacuously fine: no document was produced). -/
def docNodesOk : Except TwiMLError ResponseDocument → Bool
  | .ok d => d.nodes.all (fun n => (allowedVerbs d.kind).contains n.name)
  | .error _ => true

/-- The environment variables read by `get_twilio_client`
(`TWILIO_ACCOUNT_SID` and `TWILIO_AUTH_TOKEN`); `os.getenv` yields
`none` when unset. -/
structure Env where
  twilio_account_sid : Option String
  twilio_auth_token : Option String

/-- Result of `get_twilio_client`: either a constructed `Client` with
the credentials it was given, or the raised `EnvironmentError`. -/
inductive ClientResult where
  | client (account_sid auth_token : String)
  | error (msg : String)
deriving DecidableEq, Repr

/-- `get_twilio_client` from the source: use the provided credentials
when both are truthy, otherwise fall back to the environment variables,
and raise when either of those is falsy. -/
def get_twilio_client (account_sid auth_token : Option String) (env : Env) : ClientResult :=
  if truthyStr account_sid && truthyStr auth_token then
    ClientResult.client (account_sid.getD "") (auth_token.getD "")
  else
    let sid := env.twilio_account_sid
    let tok := env.twilio_auth_token
    if !truthyStr sid || !truthyStr tok then
      ClientResult.error "TWILIO_ACCOUNT_SID and TWILIO_AUTH_TOKEN environment variables must be set"
    else
      ClientResult.client (sid.getD "") (tok.getD "")

/-- The argument record of a `client.messages.create` call: `body`,
`from_` and `to` (the latter named `to_` here, `to` being reserved). -/
structure CreateRequest where
  body : String
  from_ : String
  to_ : String
deriving DecidableEq, Repr

/-- What one send component execution observably does: the create
request it issues and the `message_sid` output it sets. -/
structure SendOutcome where
  request : CreateRequest
  message_sid : String
deriving DecidableEq, Repr

/-- `TwilioSendSMS.execute`: resolve the client (supplied port value or
the default client), call `messages.create(body, from_, to)` and set
`message_sid` to the returned sid.  A client is modelled by the sid it
returns for each request. -/
def twilioSendSMS_execute (client : Option (CreateRequest → String))
    (defaultClient : CreateRequest → String)
    (from_number to_number message : String) : SendOutcome :=
  let c := client.getD defaultClient
  let r : CreateRequest := ⟨message, from_number, to_number⟩
  ⟨r, c r⟩

/-- `TwilioSendWhatsApp.execute`: resolve the client (supplied port
value or the default client), call `messages.create(body, from_, to)`
and set `message_sid` to the returned sid. -/
def twilioSendWhatsApp_execute (client : Option (CreateRequest → String))
    (defaultClient : CreateRequest → String)
    (from_number to_number message : String) : SendOutcome :=
  let c := client.getD defaultClient
  let r : CreateRequest := ⟨message, from_number, to_number⟩
  ⟨r, c r⟩



/-! ### Helper lemmas -/

theorem optStrAttr_any (n m : String) (v : Option String) :
    ((optStrAttr n v).any (fun p => p.1 == m)) = (truthyStr v && (n == m)) := by
  cases v with
  | none => simp [optStrAttr, truthyStr]
  | some s => by_cases h : s = "" <;> simp [optStrAttr, truthyStr, h]

theorem optIntAttr_any (n m : String) (v : Option Int) :
    ((optIntAttr n v).any (fun p => p.1 == m)) = (truthyInt v && (n == m)) := by
  cases v with
  | none => simp [optIntAttr, truthyInt]
  | some k => by_cases h : k = 0 <;> simp [optIntAttr, truthyInt, h]

theorem optBoolAttr_any (n m : String) (v : Option Bool) :
    ((optBoolAttr n v).any (fun p => p.1 == m)) = (truthyBool v && (n == m)) := by
  cases v with
  | none => simp [optBoolAttr, truthyBool]
  | some b => cases b <;> simp [optBoolAttr, truthyBool]

/-! ### Claim theorems -/

/-- Claim C1: for every TwiML builder component and every optional
parameter (Say's voice/language/loop, Play's loop, Dial's
timeout/caller_id, Gather's timeout, Record's
timeout/transcribe/transcribe_callback, Message's media_url), the
corresponding attribute (or Media child) appears in the built node iff
the supplied value is Python-truthy; a falsy value (absent, empty
string, zero, False) yields exactly the serialized output of the
omitted form, and transcribe=False gives the same output as omitting
transcribe. -/
theorem optional_attr_iff_truthy :
    ∀ (m : String) (v l : Option String) (lp : Option Int)
      (u : String) (plp : Option Int)
      (dt : Option Int) (cid : Option String) (ns : List String) (dns : List String)
      (gp ga : String) (gnd : Int) (gt : Option Int)
      (rml : Int) (ra : String) (rt : Option Int) (rtr : Option Bool) (rcb : Option String)
      (mm rmsg : String) (mu : Option String),
      hasAttr (sayNode m v l lp) "voice" = truthyStr v ∧
      hasAttr (sayNode m v l lp) "language" = truthyStr l ∧
      hasAttr (sayNode m v l lp) "loop" = truthyInt lp ∧
      hasAttr (playNode u plp) "loop" = truthyInt plp ∧
      hasAttr (dialNode dt cid ns) "timeout" = truthyInt dt ∧
      hasAttr (dialNode dt cid ns) "callerId" = truthyStr cid ∧
      hasAttr (gatherNode gnd ga gt gp) "timeout" = truthyInt gt ∧
      hasAttr (recordNode rml ra rt rtr rcb) "timeout" = truthyInt rt ∧
      hasAttr (recordNode rml ra rt rtr rcb) "transcribe" = truthyBool rtr ∧
      hasAttr (recordNode rml ra rt rtr rcb) "transcribeCallback" = truthyStr rcb ∧
      ((messageNode mm mu).children.any fun c => c.name == "Media") = truthyStr mu ∧
      makeTwiMLSay (some m) (some "") (some "") (some 0) = makeTwiMLSay (some m) none none none ∧
      makeTwiMLPlay (some u) (some 0) = makeTwiMLPlay (some u) none ∧
      makeTwiMLDial (some dns) (some 0) (some "") = makeTwiMLDial (some dns) none none ∧
      makeTwiMLGather (some gp) (some gnd) (some 0) (some ga) =
        makeTwiMLGather (some gp) (some gnd) none (some ga) ∧
      makeTwiMLMessage (some mm) (some "") = makeTwiMLMessage (some mm) none ∧
      makeTwiMLSayAndRecord (some rmsg) (some rml) (some 0) (some false) (some "") (some ra) =
        makeTwiMLSayAndRecord (some rmsg) (some rml) none none none (some ra) ∧
      makeTwiMLSayAndRecord (some rmsg) (some rml) rt (some false) rcb (some ra) =
        makeTwiMLSayAndRecord (some rmsg) (some rml) rt none rcb (some ra) := by
  intro m v l lp u plp dt cid ns dns gp ga gnd gt rml ra rt rtr rcb mm rmsg mu
  refine ⟨?_, ?_, ?_, ?_, ?_, ?_, ?_, ?_, ?_, ?_, ?_, rfl, rfl, rfl, rfl, rfl, rfl, rfl⟩
  · simp [hasAttr, sayNode, TwiML.attrs, List.any_append, optStrAttr_any, optIntAttr_any]
  · simp [hasAttr, sayNode, TwiML.attrs, List.any_append, optStrAttr_any, optIntAttr_any]
  · simp [hasAttr, sayNode, TwiML.attrs, List.any_append, optStrAttr_any, optIntAttr_any]
  · simp [hasAttr, playNode, TwiML.attrs, optIntAttr_any]
  · simp [hasAttr, dialNode, TwiML.attrs, List.any_append, optStrAttr_any, optIntAttr_any]
  · simp [hasAttr, dialNode, TwiML.attrs, List.any_append, optStrAttr_any, optIntAttr_any]
  · simp [hasAttr, gatherNode, TwiML.attrs, List.any_append, optIntAttr_any]
  · simp [hasAttr, recordNode, TwiML.attrs, List.any_append, optStrAttr_any, optIntAttr_any,
      optBoolAttr_any]
  · simp [hasAttr, recordNode, TwiML.attrs, List.any_append, optStrAttr_any, optIntAttr_any,
      optBoolAttr_any]
  · simp [hasAttr, recordNode, TwiML.attrs, List.any_append, optStrAttr_any, optIntAttr_any,
      optBoolAttr_any]
  · cases mu with
    | none => simp [messageNode, TwiML.children, truthyStr]
    | some w =>
      by_cases h : w = "" <;> simp [messageNode, TwiML.children, truthyStr, TwiML.name, h]

/-- Claim C2: for every required parameter listed (Gather's num_digits
and action_url, SayAndRecord's max_length and action_url, Say's
message, Play's url, Dial's numbers, Message's message), executing the
component with that parameter absent raises MissingRequiredAttribute
and produces no serialized output. -/
theorem required_missing_raises :
    (∀ (v l : Option String) (lp : Option Int),
      makeTwiMLSay none v l lp = .error .MissingRequiredAttribute) ∧
    (∀ lp : Option Int, makeTwiMLPlay none lp = .error .MissingRequiredAttribute) ∧
    (∀ (t : Option Int) (cid : Option String),
      makeTwiMLDial none t cid = .error .MissingRequiredAttribute) ∧
    (∀ (p : Option String) (t : Option Int) (a : Option String),
      makeTwiMLGather p none t a = .error .MissingRequiredAttribute) ∧
    (∀ (p : Option String) (nd t : Option Int),
      makeTwiMLGather p nd t none = .error .MissingRequiredAttribute) ∧
    (∀ (m : Option String) (t : Option Int) (tr : Option Bool) (cb a : Option String),
      makeTwiMLSayAndRecord m none t tr cb a = .error .MissingRequiredAttribute) ∧
    (∀ (m : Option String) (ml t : Option Int) (tr : Option Bool) (cb : Option String),
      makeTwiMLSayAndRecord m ml t tr cb none = .error .MissingRequiredAttribute) ∧
    (∀ mu : Option String, makeTwiMLMessage none mu = .error .MissingRequiredAttribute) := by
  refine ⟨fun v l lp => rfl, fun lp => rfl, fun t cid => rfl, fun p t a => ?_,
    fun p nd t => ?_, fun m t tr cb a => ?_, fun m ml t tr cb => ?_, fun mu => rfl⟩
  · cases p <;> cases a <;> rfl
  · cases p <;> cases nd <;> rfl
  · cases m <;> cases a <;> rfl
  · cases m <;> cases ml <;> rfl

/-- Claim C3: appending a Message node to a voice-kind document raises
IncompatibleVerb, appending a Say node to a messaging-kind document
raises IncompatibleVerb, and every document a component produces
contains only verbs compatible with its kind. -/
theorem kind_isolation :
    (∀ (ns : List TwiML) (m : String) (mu : Option String),
      appendVerb ⟨Kind.voice, ns⟩ (messageNode m mu) = .error .IncompatibleVerb) ∧
    (∀ (ns : List TwiML) (m : String) (v l : Option String) (lp : Option Int),
      appendVerb ⟨Kind.messaging, ns⟩ (sayNode m v l lp) = .error .IncompatibleVerb) ∧
    (∀ (m v l : Option String) (lp : Option Int),
      docNodesOk (makeTwiMLSayDoc m v l lp) = true) ∧
    (∀ (u : Option String) (lp : Option Int), docNodesOk (makeTwiMLPlayDoc u lp) = true) ∧
    (∀ (ns : Option (List String)) (t : Option Int) (cid : Option String),
      docNodesOk (makeTwiMLDialDoc ns t cid) = true) ∧
    (∀ (p : Option String) (nd t : Option Int) (a : Option String),
      docNodesOk (makeTwiMLGatherDoc p nd t a) = true) ∧
    (∀ (m mu : Option String), docNodesOk (makeTwiMLMessageDoc m mu) = true) ∧
    (∀ (m : Option String) (ml t : Option Int) (tr : Option Bool) (cb a : Option String),
      docNodesOk (makeTwiMLSayAndRecordDoc m ml t tr cb a) = true) := by
  refine ⟨fun ns m mu => rfl, fun ns m v l lp => rfl, fun m v l lp => ?_, fun u lp => ?_,
    fun ns t cid => ?_, fun p nd t a => ?_, fun m mu => ?_, fun m ml t tr cb a => ?_⟩
  · cases m <;> rfl
  · cases u <;> rfl
  · cases ns <;> rfl
  · cases p <;> cases nd <;> cases a <;> rfl
  · cases m <;> rfl
  · cases m <;> cases ml <;> cases a <;> rfl

/-- Claim C4: Gather with prompt "Enter PIN", num_digits 4, action_url
"https://x/cb" and no timeout serializes exactly as in the spec, with
num_digits/action_url mapped to numDigits/action and the prompt as a
nested attribute-free Say child. -/
theorem gather_scenario :
    (makeTwiMLGather (some "Enter PIN") (some 4) none (some "https://x/cb") =
      .ok "<Response><Gather numDigits=\"4\" action=\"https://x/cb\"><Say>Enter PIN</Say></Gather></Response>") ∧
    (∀ (nd : Int) (a : String) (t : Option Int) (p : String),
      (gatherNode nd a t p).children = [TwiML.elem "Say" [] p []]) :=
  ⟨rfl, fun _ _ _ _ => rfl⟩

/-- Claim C5: a Dial built from any list of phone numbers has exactly
one Number child per supplied number in list order (shown concretely
for the two-number example), and no node built by any other component
carries a Number child. -/
theorem dial_number_containment :
    (makeTwiMLDial (some ["+15551234567", "+15557654321"]) none none =
      .ok "<Response><Dial><Number>+15551234567</Number><Number>+15557654321</Number></Dial></Response>") ∧
    (∀ (t : Option Int) (cid : Option String) (ns : List String),
      (dialNode t cid ns).children = ns.map numberNode) ∧
    (∀ (m : String) (v l : Option String) (lp : Option Int), (sayNode m v l lp).children = []) ∧
    (∀ (u : String) (lp : Option Int), (playNode u lp).children = []) ∧
    (∀ (nd : Int) (a : String) (t : Option Int) (p : String),
      (gatherNode nd a t p).children.all (fun c => c.name != "Number") = true) ∧
    (∀ (ml : Int) (a : String) (t : Option Int) (tr : Option Bool) (cb : Option String),
      (recordNode ml a t tr cb).children = []) ∧
    (∀ (m : String) (mu : Option String),
      (messageNode m mu).children.all (fun c => c.name != "Number") = true) := by
  refine ⟨rfl, fun t cid ns => rfl, fun m v l lp => rfl, fun u lp => rfl,
    fun nd a t p => rfl, fun ml a t tr cb => rfl, fun m mu => ?_⟩
  cases mu with
  | none => rfl
  | some w => by_cases h : w = "" <;> simp [messageNode, TwiML.children, TwiML.name, h]

/-- Claim C6: Say with message "Hello", voice "alice", language "en-US"
and no loop serializes exactly to the spec's scenario text. -/
theorem say_scenario :
    makeTwiMLSay (some "Hello") (some "alice") (some "en-US") none =
      .ok "<Response><Say voice=\"alice\" language=\"en-US\">Hello</Say></Response>" := rfl

/-- Claim C7: Message with message "Hi" and media_url absent serializes
exactly to the spec's scenario text, and a Message node never has a
Media child when media_url is omitted. -/
theorem message_scenario :
    (makeTwiMLMessage (some "Hi") none = .ok "<Response><Message>Hi</Message></Response>") ∧
    (∀ m : String, (messageNode m none).children = []) :=
  ⟨rfl, fun _ => rfl⟩

/-- Claim C8: serialization is deterministic — serializing the same
document twice yields the same text, and each builder component maps
equal input values to identical twiml output text. -/
theorem serialization_deterministic :
    (∀ d : ResponseDocument, serialize d = serialize d) ∧
    (∀ (m m' v v' l l' : Option String) (lp lp' : Option Int),
      m = m' → v = v' → l = l' → lp = lp' →
      makeTwiMLSay m v l lp = makeTwiMLSay m' v' l' lp') ∧
    (∀ (u u' : Option String) (lp lp' : Option Int),
      u = u' → lp = lp' → makeTwiMLPlay u lp = makeTwiMLPlay u' lp') ∧
    (∀ (ns ns' : Option (List String)) (t t' : Option Int) (cid cid' : Option String),
      ns = ns' → t = t' → cid = cid' → makeTwiMLDial ns t cid = makeTwiMLDial ns' t' cid') ∧
    (∀ (p p' : Option String) (nd nd' t t' : Option Int) (a a' : Option String),
      p = p' → nd = nd' → t = t' → a = a' →
      makeTwiMLGather p nd t a = makeTwiMLGather p' nd' t' a') ∧
    (∀ (m m' mu mu' : Option String),
      m = m' → mu = mu' → makeTwiMLMessage m mu = makeTwiMLMessage m' mu') ∧
    (∀ (m m' : Option String) (ml ml' t t' : Option Int) (tr tr' : Option Bool)
      (cb cb' a a' : Option String),
      m = m' → ml = ml' → t = t' → tr = tr' → cb = cb' → a = a' →
      makeTwiMLSayAndRecord m ml t tr cb a = makeTwiMLSayAndRecord m' ml' t' tr' cb' a') := by
  refine ⟨fun d => rfl, ?_, ?_, ?_, ?_, ?_, ?_⟩ <;> exact by intros; subst_vars; rfl

/-- Witness for C8 at concrete inputs. -/
theorem serialization_deterministic_witness :
    makeTwiMLSay (some "Hello") (some "alice") none none =
      makeTwiMLSay (some "Hello") (some "alice") none none :=
  serialization_deterministic.2.1 _ _ _ _ _ _ _ _ rfl rfl rfl rfl

/-- Claim C9: `get_twilio_client` uses explicitly passed credentials
when both are supplied (truthy), otherwise falls back to the
environment variables TWILIO_ACCOUNT_SID and TWILIO_AUTH_TOKEN, and
raises an error exactly when neither source supplies both values. -/
theorem get_twilio_client_spec :
    ∀ (account_sid auth_token : Option String) (env : Env),
      ((truthyStr account_sid && truthyStr auth_token) = true →
        get_twilio_client account_sid auth_token env =
          .client (account_sid.getD "") (auth_token.getD "")) ∧
      ((truthyStr account_sid && truthyStr auth_token) = false →
        (truthyStr env.twilio_account_sid && truthyStr env.twilio_auth_token) = true →
        get_twilio_client account_sid auth_token env =
          .client (env.twilio_account_sid.getD "") (env.twilio_auth_token.getD "")) ∧
      ((∃ msg, get_twilio_client account_sid auth_token env = .error msg) ↔
        ((truthyStr account_sid && truthyStr auth_token) = false ∧
         (truthyStr env.twilio_account_sid && truthyStr env.twilio_auth_token) = false)) := by
  intro a t env
  refine ⟨fun h1 => by simp [get_twilio_client, h1], fun h1 h2 => ?_, ?_⟩
  · have h2' := h2
    rw [Bool.and_eq_true] at h2'
    simp [get_twilio_client, h1, h2'.1, h2'.2]
  · by_cases h1 : (truthyStr a && truthyStr t) = true
    · simp [get_twilio_client, h1]
    · by_cases h2 : (truthyStr env.twilio_account_sid && truthyStr env.twilio_auth_token) = true
      · have h2' := h2
        rw [Bool.and_eq_true] at h2'
        simp [get_twilio_client, h1, h2'.1, h2'.2, h2]
      · rw [Bool.not_eq_true] at h1 h2
        have h2' : (!truthyStr env.twilio_account_sid || !truthyStr env.twilio_auth_token) = true := by
          rw [Bool.and_eq_false_iff] at h2
          rcases h2 with h | h <;> simp [h]
        simp [get_twilio_client, h1, h2', h2]

/-- Witness for C9 at concrete inputs: explicit credentials win over an
unset environment, the environment is used when no explicit pair is
given, and a half-given explicit pair with a half-set environment
raises. -/
theorem get_twilio_client_spec_witness :
    get_twilio_client (some "AC") (some "tk") ⟨none, none⟩ = .client "AC" "tk" ∧
    get_twilio_client none none ⟨some "e1", some "e2"⟩ = .client "e1" "e2" ∧
    (∃ msg, get_twilio_client none (some "tk") ⟨none, some "e2"⟩ = .error msg) :=
  ⟨(get_twilio_client_spec (some "AC") (some "tk") ⟨none, none⟩).1 (by decide),
   (get_twilio_client_spec none none ⟨some "e1", some "e2"⟩).2.1 (by decide) (by decide),
   ((get_twilio_client_spec none (some "tk") ⟨none, some "e2"⟩).2.2).2 ⟨by decide, by decide⟩⟩

/-- Claim C10: `TwilioSendSMS.execute` and `TwilioSendWhatsApp.execute`
are extensionally equal — for every client, from_number, to_number and
message they issue the identical create request and set the same
message_sid. -/
theorem sendSMS_eq_sendWhatsApp :
    ∀ (client : Option (CreateRequest → String)) (defaultClient : CreateRequest → String)
      (from_number to_number message : String),
      twilioSendSMS_execute client defaultClient from_number to_number message =
        twilioSendWhatsApp_execute client defaultClient from_number to_number message :=
  fun _ _ _ _ _ => rfl

end Twilio
